import Mathlib

/-!
Verification of the multi-select prompt state machine of
`src/src/prompts/multiselect.rs` (crate `inquire`, prompt `MultiSelect`).

The Rust code is shallowly embedded: each struct becomes a Lean structure and
each method a pure Lean function over it.  The `HashSet<usize>` of checked
indices becomes a `Finset Nat`; the editing buffer (`crate::input::Input`, an
external collaborator whose code is not part of the prompt module) is
represented by its content `String`, with its key handler abstracted as a
function parameter `String → Key → String × Bool` returning the new content
and the dirty flag, exactly the interface the prompt module consumes.
-/

namespace Inquire

/-- Modifier state attached to a key event.  The Rust code only distinguishes
`KeyModifiers::NONE` from every other modifier combination, so the embedding
keeps exactly that distinction. -/
inductive KeyModifiers where
  | NONE
  | OTHER
deriving DecidableEq, Repr

/-- Key events consumed by the prompt loop (`ui::Key`).  `Other` stands for
any further key forwarded to the editing buffer. -/
inductive Key where
  | Cancel
  | Submit
  | Up (m : KeyModifiers)
  | Down (m : KeyModifiers)
  | Left (m : KeyModifiers)
  | Right (m : KeyModifiers)
  | Char (c : Char) (m : KeyModifiers)
  | Other
deriving DecidableEq, Repr

/-- `error::InquireError`, restricted to the variants this module produces. -/
inductive InquireError where
  | InvalidConfiguration (msg : String)
  | OperationCanceled
deriving DecidableEq, Repr

/-- `option_answer::OptionAnswer`: an (original index, label) pair. -/
structure OptionAnswer where
  index : Nat
  value : String
deriving DecidableEq, Repr

/-- `config::Filter`: predicate `(current input, option label, original index) → Bool`. -/
abbrev Filter := String → String → Nat → Bool

/-- `validator::MultiOptionValidator`: `Result<(), String>` on the candidate answer. -/
abbrev MultiOptionValidator := List OptionAnswer → Except String Unit

/-- `formatter::MultiOptionFormatter`. -/
abbrev MultiOptionFormatter := List OptionAnswer → String

/-- The public `MultiSelect` configuration struct (multiselect.rs lines 44-85).
Render-only fields (`render_config`) are omitted: they never influence the
state machine. -/
structure MultiSelect where
  message : String
  options : List String
  default : Option (List Nat)
  help_message : Option String
  page_size : Nat
  vim_mode : Bool
  starting_cursor : Nat
  filter : Filter
  keep_filter : Bool
  formatter : MultiOptionFormatter
  validator : Option MultiOptionValidator

/-- The private session state `MultiSelectPrompt` (multiselect.rs lines 218-233).
`input` is the content of the editing buffer; `checked` is the `HashSet<usize>`
as a `Finset Nat`. -/
structure MultiSelectPrompt where
  message : String
  options : List String
  help_message : Option String
  vim_mode : Bool
  cursor_index : Nat
  checked : Finset Nat
  page_size : Nat
  keep_filter : Bool
  input : String
  filtered_options : List Nat
  filter : Filter
  formatter : MultiOptionFormatter
  validator : Option MultiOptionValidator
  error : Option String

/-- `MultiSelectPrompt::new` (multiselect.rs lines 236-272): rejects an empty
option list, then rejects the first default index that is `>=` the option
count, and otherwise builds the initial session state. -/
def MultiSelectPrompt.new (mso : MultiSelect) : Except InquireError MultiSelectPrompt :=
  if mso.options.isEmpty then
    .error (.InvalidConfiguration "Available options can not be empty")
  else
    match (mso.default.getD []).find? (fun i => decide (mso.options.length ≤ i)) with
    | some i =>
        .error (.InvalidConfiguration
          ("Index " ++ toString i ++ " is out-of-bounds for length "
            ++ toString mso.options.length ++ " of options"))
    | none =>
        .ok
          { message := mso.message
            options := mso.options
            help_message := mso.help_message
            vim_mode := mso.vim_mode
            cursor_index := mso.starting_cursor
            checked :=
              match mso.default with
              | none => ∅
              | some d => d.toFinset
            page_size := mso.page_size
            keep_filter := mso.keep_filter
            input := ""
            filtered_options := List.range mso.options.length
            filter := mso.filter
            formatter := mso.formatter
            validator := mso.validator
            error := none }

/-- `MultiSelectPrompt::filter_options` (multiselect.rs lines 274-284): keep
every index whose label passes the filter, or every index when the input is
empty, in original order. -/
def MultiSelectPrompt.filter_options (s : MultiSelectPrompt) : List Nat :=
  s.options.enum.filterMap fun p =>
    if s.input.isEmpty then some p.1
    else if s.filter s.input p.2 p.1 then some p.1
    else none

/-- `MultiSelectPrompt::move_cursor_up` (multiselect.rs lines 286-292):
`cursor.checked_sub(1).or(len.checked_sub(1)).unwrap_or(0)`. -/
def MultiSelectPrompt.move_cursor_up (s : MultiSelectPrompt) : MultiSelectPrompt :=
  { s with
      cursor_index :=
        if s.cursor_index = 0 then
          if s.filtered_options.length = 0 then 0 else s.filtered_options.length - 1
        else s.cursor_index - 1 }

/-- `MultiSelectPrompt::move_cursor_down` (multiselect.rs lines 294-299):
increment, then reset to 0 when the result reaches the filtered length. -/
def MultiSelectPrompt.move_cursor_down (s : MultiSelectPrompt) : MultiSelectPrompt :=
  { s with
      cursor_index :=
        if s.filtered_options.length ≤ s.cursor_index + 1 then 0
        else s.cursor_index + 1 }

/-- `MultiSelectPrompt::toggle_cursor_selection` (multiselect.rs lines 301-316):
resolve the original index under the cursor (early return when there is none),
flip its membership in `checked`, then clear the input if `keep_filter` is
disabled. -/
def MultiSelectPrompt.toggle_cursor_selection (s : MultiSelectPrompt) : MultiSelectPrompt :=
  match s.filtered_options.get? s.cursor_index with
  | none => s
  | some idx =>
      let s1 :=
        { s with
            checked :=
              if idx ∈ s.checked then s.checked.erase idx else insert idx s.checked }
      if !s1.keep_filter then { s1 with input := "" } else s1

/-- The default arm of `MultiSelectPrompt::on_change` (multiselect.rs lines
342-352): forward the key to the editing buffer; when the buffer reports its
content changed, recompute the filtered list, clamping the cursor to
`len - 1` only when the new list is non-empty and too short for it.
`handle` is the buffer collaborator `Input::handle_key`, abstracted as a
function from current content and key to new content and dirty flag. -/
def MultiSelectPrompt.handle_text_key (handle : String → Key → String × Bool)
    (s : MultiSelectPrompt) (key : Key) : MultiSelectPrompt :=
  let res := handle s.input key
  let s1 := { s with input := res.1 }
  if res.2 then
    let options := s1.filter_options
    let c :=
      if 0 < options.length ∧ options.length ≤ s1.cursor_index then options.length - 1
      else s1.cursor_index
    { s1 with cursor_index := c, filtered_options := options }
  else s1

/-- `MultiSelectPrompt::on_change` (multiselect.rs lines 318-354).  Arms are
tried in source order; the vim `k`/`j` arms fall through to the text-editing
default arm when `vim_mode` is off, exactly like the Rust guard. -/
def MultiSelectPrompt.on_change (handle : String → Key → String × Bool)
    (s : MultiSelectPrompt) (key : Key) : MultiSelectPrompt :=
  match key with
  | Key.Up KeyModifiers.NONE => s.move_cursor_up
  | Key.Char 'k' KeyModifiers.NONE =>
      if s.vim_mode then s.move_cursor_up else s.handle_text_key handle key
  | Key.Down KeyModifiers.NONE => s.move_cursor_down
  | Key.Char 'j' KeyModifiers.NONE =>
      if s.vim_mode then s.move_cursor_down else s.handle_text_key handle key
  | Key.Char ' ' KeyModifiers.NONE => s.toggle_cursor_selection
  | Key.Right KeyModifiers.NONE =>
      let s1 :=
        { s with
            checked := s.filtered_options.foldl (fun acc idx => insert idx acc) ∅ }
      if !s1.keep_filter then { s1 with input := "" } else s1
  | Key.Left KeyModifiers.NONE =>
      let s1 := { s with checked := ∅ }
      if !s1.keep_filter then { s1 with input := "" } else s1
  | key => s.handle_text_key handle key

/-- The candidate answer built inside `MultiSelectPrompt::get_final_answer`
(multiselect.rs lines 357-365): iterate the original options in order and
keep the checked ones. -/
def MultiSelectPrompt.selected_options (s : MultiSelectPrompt) : List OptionAnswer :=
  s.options.enum.filterMap fun p =>
    if p.1 ∈ s.checked then some { index := p.1, value := p.2 } else none

/-- `MultiSelectPrompt::get_final_answer` (multiselect.rs lines 356-375):
build the candidate answer, then gate it through the validator when one is
configured. -/
def MultiSelectPrompt.get_final_answer (s : MultiSelectPrompt) :
    Except String (List OptionAnswer) :=
  match s.validator with
  | some v =>
      match v s.selected_options with
      | .ok _ => .ok s.selected_options
      | .error err => .error err
  | none => .ok s.selected_options

/-- Outcome of the prompt loop.  `success` carries the final answer together
with the formatted text handed to `finish_prompt`; `canceled` corresponds to
`Err(InquireError::OperationCanceled)` and carries nothing; `outOfKeys` marks
a key stream that ended while the loop would still be blocking for input. -/
inductive PromptOutcome where
  | success (answer : List OptionAnswer) (formatted : String)
  | canceled
  | outOfKeys
deriving DecidableEq, Repr

/-- `MultiSelectPrompt::prompt` (multiselect.rs lines 414-443), driven by an
explicit list of key events standing for the successive `backend.read_key()`
results: Cancel aborts at once, Submit terminates when `get_final_answer`
accepts and otherwise stores the validator message as the session error and
keeps looping, and every other key goes through `on_change`. -/
def runPrompt (handle : String → Key → String × Bool) :
    List Key → MultiSelectPrompt → PromptOutcome
  | [], _ => .outOfKeys
  | key :: rest, s =>
      match key with
      | Key.Cancel => .canceled
      | Key.Submit =>
          match s.get_final_answer with
          | .ok answer => .success answer (s.formatter answer)
          | .error err => runPrompt handle rest { s with error := some err }
      | k => runPrompt handle rest (s.on_change handle k)

/-- A buffer handler that never reports a content change, used in witnesses
whose claims do not involve text editing. -/
def handleId : String → Key → String × Bool := fun inp _ => (inp, false)

/-- A buffer handler that appends `x` and reports the content as changed —
the behaviour of the real editing buffer when the user types `x`. -/
def handleAppend : String → Key → String × Bool := fun inp _ => (inp.push 'x', true)

/-- Concrete configuration used to witness C1: two options, default `[1]`. -/
def msoW1 : MultiSelect :=
  { message := "m"
    options := ["a", "b"]
    default := some [1]
    help_message := none
    page_size := 7
    vim_mode := false
    starting_cursor := 0
    filter := fun _ _ _ => true
    keep_filter := true
    formatter := fun _ => ""
    validator := none }

/-- Concrete configuration deciding C5: two options, starting cursor 5. -/
def msoC5 : MultiSelect :=
  { message := "m"
    options := ["a", "b"]
    default := none
    help_message := none
    page_size := 7
    vim_mode := false
    starting_cursor := 5
    filter := fun _ _ _ => true
    keep_filter := true
    formatter := fun _ => ""
    validator := none }

/-- Concrete session deciding C3: `keep_filter` off, active query `"a"`,
filtered list `[0]` out of two options (the state reached by typing `a` with
a filter matching label `"a"` only). -/
def sC3 : MultiSelectPrompt :=
  { message := "m"
    options := ["a", "b"]
    help_message := none
    vim_mode := false
    cursor_index := 0
    checked := ∅
    page_size := 7
    keep_filter := false
    input := "a"
    filtered_options := [0]
    filter := fun inp opt _ => opt == inp
    formatter := fun _ => ""
    validator := none
    error := none }

/-- Concrete session deciding C4: four options, cursor on the last one, and a
filter that rejects everything, so that the next dirty keystroke empties the
filtered list. -/
def sC4 : MultiSelectPrompt :=
  { message := "m"
    options := ["a", "b", "c", "d"]
    help_message := none
    vim_mode := false
    cursor_index := 3
    checked := ∅
    page_size := 7
    keep_filter := true
    input := ""
    filtered_options := [0, 1, 2, 3]
    filter := fun _ _ _ => false
    formatter := fun _ => ""
    validator := none
    error := none }

/-- Concrete session used to witness C6: three visible options, cursor at 0. -/
def sC6 : MultiSelectPrompt :=
  { message := "m"
    options := ["a", "b", "c"]
    help_message := none
    vim_mode := false
    cursor_index := 0
    checked := ∅
    page_size := 7
    keep_filter := true
    input := ""
    filtered_options := [0, 1, 2]
    filter := fun _ _ _ => true
    formatter := fun _ => ""
    validator := none
    error := none }

/-- Concrete session used to witness C8: nothing checked and a validator that
rejects an empty selection. -/
def sC8 : MultiSelectPrompt :=
  { message := "m"
    options := ["a", "b"]
    help_message := none
    vim_mode := false
    cursor_index := 0
    checked := ∅
    page_size := 7
    keep_filter := true
    input := ""
    filtered_options := [0, 1]
    filter := fun _ _ _ => true
    formatter := fun _ => ""
    validator := some fun opts =>
      if opts.length = 0 then .error "select at least one option" else .ok ()
    error := none }

/-- Concrete session used to witness C10: the filtered list is empty while the
`keep_filter` flag is off and a query is still present. -/
def sC10 : MultiSelectPrompt :=
  { message := "m"
    options := ["a", "b"]
    help_message := none
    vim_mode := false
    cursor_index := 0
    checked := {1}
    page_size := 7
    keep_filter := false
    input := "zz"
    filtered_options := []
    filter := fun _ _ _ => false
    formatter := fun _ => ""
    validator := none
    error := none }

/-- Membership in a left fold of `Finset.insert`, the shape produced by the
select-all-visible loop (multiselect.rs lines 326-329). -/
theorem mem_foldl_insert (l : List Nat) (acc : Finset Nat) (i : Nat) :
    i ∈ l.foldl (fun a j => insert j a) acc ↔ i ∈ acc ∨ i ∈ l := by
  induction l generalizing acc with
  | nil => simp
  | cons a t ih =>
      simp only [List.foldl_cons, ih, Finset.mem_insert, List.mem_cons]
      tauto

/-- Claim C1: construction fails with a configuration error when the option
list is empty or some default index is `>= N`; otherwise it succeeds and the
session starts with cursor = starting cursor, filtered list = full range,
checked set = the default indices (empty when none are given), empty filter
text and no error. -/
theorem claim_C1_construction (mso : MultiSelect) :
    (mso.options = [] →
      MultiSelectPrompt.new mso =
        .error (.InvalidConfiguration "Available options can not be empty")) ∧
    (∀ d i, mso.default = some d → i ∈ d → mso.options.length ≤ i →
      ∃ m, MultiSelectPrompt.new mso = .error (.InvalidConfiguration m)) ∧
    (mso.options ≠ [] → (∀ i ∈ mso.default.getD [], i < mso.options.length) →
      ∃ s, MultiSelectPrompt.new mso = .ok s ∧
        s.cursor_index = mso.starting_cursor ∧
        s.filtered_options = List.range mso.options.length ∧
        s.checked = (mso.default.getD []).toFinset ∧
        s.input = "" ∧
        s.error = none) := by
  refine ⟨?_, ?_, ?_⟩
  · intro h
    simp [MultiSelectPrompt.new, h]
  · intro d i hd hi hlen
    unfold MultiSelectPrompt.new
    by_cases he : mso.options.isEmpty
    · simp [he]
    · simp only [he, if_false]
      cases hfind : (mso.default.getD []).find? (fun i => decide (mso.options.length ≤ i)) with
      | none =>
          exfalso
          rw [List.find?_eq_none] at hfind
          have := hfind i (by simp [hd, hi])
          simp [hlen] at this
      | some j => exact ⟨_, rfl⟩
  · intro hne hbound
    unfold MultiSelectPrompt.new
    have he : mso.options.isEmpty = false := by
      simpa [List.isEmpty_iff] using hne
    have hfind : (mso.default.getD []).find? (fun i => decide (mso.options.length ≤ i)) = none := by
      rw [List.find?_eq_none]
      intro x hx
      simpa using Nat.not_le.mpr (hbound x hx)
    simp only [he, if_false, hfind]
    refine ⟨_, rfl, rfl, rfl, ?_, rfl, rfl⟩
    cases mso.default with
    | none => simp
    | some d => rfl

/-- Witness for C1: at the concrete configuration `msoW1` the success branch
applies and produces the initialized session. -/
theorem claim_C1_construction_witness :
    msoW1.options ≠ [] ∧ (∀ i ∈ msoW1.default.getD [], i < msoW1.options.length) ∧
    ∃ s, MultiSelectPrompt.new msoW1 = .ok s ∧
      s.cursor_index = msoW1.starting_cursor ∧
      s.filtered_options = List.range msoW1.options.length ∧
      s.checked = (msoW1.default.getD []).toFinset ∧
      s.input = "" ∧
      s.error = none := by
  refine ⟨by simp [msoW1], by decide, ?_⟩
  exact (claim_C1_construction msoW1).2.2 (by simp [msoW1]) (by decide)

/-- Claim C5 (code behaviour at the failing input): `new` never checks the
starting cursor, so construction with starting cursor 5 over a 2-element
option list succeeds and the session starts with the out-of-range cursor 5 —
contradicting both the claim and the rustdoc of the `starting_cursor` field
(multiselect.rs line 29), which promises an `InvalidConfiguration` error. -/
theorem claim_C5_code_behavior :
    (∃ s, MultiSelectPrompt.new msoC5 = .ok s ∧ s.cursor_index = 5) ∧
    msoC5.options ≠ [] ∧
    msoC5.options.length ≤ msoC5.starting_cursor := by
  refine ⟨⟨_, rfl, rfl⟩, by simp [msoC5], by decide⟩

/-- Claim C6: cursor navigation wraps over the filtered list — up from 0
lands on `L - 1` and down from `L - 1` lands on 0 when `L ≥ 1`, otherwise up
decrements and down increments, both moves fix the cursor at 0 when `L = 1`,
and both leave it at 0 when the filtered list is empty. -/
theorem claim_C6_navigation_wrap (s : MultiSelectPrompt) :
    (1 ≤ s.filtered_options.length → s.cursor_index = 0 →
      s.move_cursor_up.cursor_index = s.filtered_options.length - 1) ∧
    (1 ≤ s.filtered_options.length → s.cursor_index = s.filtered_options.length - 1 →
      s.move_cursor_down.cursor_index = 0) ∧
    (0 < s.cursor_index → s.move_cursor_up.cursor_index = s.cursor_index - 1) ∧
    (s.cursor_index + 1 < s.filtered_options.length →
      s.move_cursor_down.cursor_index = s.cursor_index + 1) ∧
    (s.filtered_options.length = 1 → s.cursor_index = 0 →
      s.move_cursor_up.cursor_index = 0 ∧ s.move_cursor_down.cursor_index = 0) ∧
    (s.filtered_options.length = 0 → s.cursor_index = 0 →
      s.move_cursor_up.cursor_index = 0 ∧ s.move_cursor_down.cursor_index = 0) := by
  refine ⟨?_, ?_, ?_, ?_, ?_, ?_⟩
  · intro hL h0
    simp only [MultiSelectPrompt.move_cursor_up]
    rw [if_pos h0, if_neg (by omega)]
  · intro hL hc
    simp only [MultiSelectPrompt.move_cursor_down, hc]
    rw [if_pos (by omega)]
  · intro hc
    simp only [MultiSelectPrompt.move_cursor_up]
    rw [if_neg (by omega)]
  · intro h
    simp only [MultiSelectPrompt.move_cursor_down]
    rw [if_neg (by omega)]
  · intro h1 h0
    constructor
    · simp only [MultiSelectPrompt.move_cursor_up]
      rw [if_pos h0, if_neg (by omega)]
      omega
    · simp only [MultiSelectPrompt.move_cursor_down]
      rw [if_pos (by omega)]
  · intro h1 h0
    constructor
    · simp only [MultiSelectPrompt.move_cursor_up]
      rw [if_pos h0, if_pos h1]
    · simp only [MultiSelectPrompt.move_cursor_down]
      rw [if_pos (by omega)]

/-- Witness for C6: on `sC6` (three visible options, cursor 0) moving up
wraps to position 2 and moving down from position 2 wraps to 0. -/
theorem claim_C6_navigation_wrap_witness :
    1 ≤ sC6.filtered_options.length ∧ sC6.cursor_index = 0 ∧
    sC6.move_cursor_up.cursor_index = sC6.filtered_options.length - 1 ∧
    ({ sC6 with cursor_index := 2 } : MultiSelectPrompt).move_cursor_down.cursor_index = 0 := by
  refine ⟨by decide, rfl, (claim_C6_navigation_wrap sC6).1 (by decide) rfl, ?_⟩
  exact (claim_C6_navigation_wrap { sC6 with cursor_index := 2 }).2.1 (by decide) rfl

/-- Claim C10: when the cursor has no addressable target in the filtered list
the toggle operation is a complete no-op — every field, the query text
included, is unchanged, because the early return precedes the clearing step. -/
theorem claim_C10_toggle_noop (s : MultiSelectPrompt)
    (h : s.filtered_options.get? s.cursor_index = none) :
    s.toggle_cursor_selection = s := by
  unfold MultiSelectPrompt.toggle_cursor_selection
  rw [h]

/-- Witness for C10: on `sC10` (empty filtered list, `keep_filter` off and a
non-empty query) the toggle leaves the whole session, query included, as is. -/
theorem claim_C10_toggle_noop_witness : sC10.toggle_cursor_selection = sC10 :=
  claim_C10_toggle_noop sC10 rfl

/-- Claim C9: a cancel key terminates the loop at once with the cancellation
outcome in every state, carrying no result; the outcome is the same whatever
validator or formatter the session holds, so neither is consulted. -/
theorem claim_C9_cancel (handle : String → Key → String × Bool)
    (s : MultiSelectPrompt) (ks : List Key) :
    runPrompt handle (Key.Cancel :: ks) s = PromptOutcome.canceled ∧
    (∀ v f, runPrompt handle (Key.Cancel :: ks)
        { s with validator := v, formatter := f } = PromptOutcome.canceled) :=
  ⟨rfl, fun _ _ => rfl⟩

/-- Claim C7: after select-all-visible (the Right arm of `on_change`) the
checked set holds exactly the original indices of the current filtered list;
anything checked before but not currently visible is unchecked, since the set
is cleared first. -/
theorem claim_C7_select_all_visible (handle : String → Key → String × Bool)
    (s : MultiSelectPrompt) :
    ∀ i, i ∈ (s.on_change handle (Key.Right KeyModifiers.NONE)).checked ↔
      i ∈ s.filtered_options := by
  intro i
  unfold MultiSelectPrompt.on_change
  cases hkf : s.keep_filter <;>
    simp [hkf, mem_foldl_insert]

/-- Counterexample to C3: on `sC3` (`keep_filter` off, query `"a"`, filtered
list `[0]` over two options) toggling at the cursor clears the query text but
leaves the filtered index list at `[0]`, which is not the full range — the
filtered list is not recomputed by the selection operation. -/
theorem claim_C3_counterexample :
    sC3.keep_filter = false ∧
    sC3.toggle_cursor_selection.input = "" ∧
    sC3.toggle_cursor_selection.filtered_options = [0] ∧
    sC3.toggle_cursor_selection.filtered_options ≠ List.range sC3.options.length := by
  refine ⟨rfl, ?_, ?_, ?_⟩ <;> decide

/-- Claim C3 as amended: when the keep-filter flag is disabled, each
selection-changing operation clears the query text but leaves the filtered
index list (and the cursor) unchanged — it is recomputed only by the next
content-changing keystroke — and alters the checked set only by the
operation's own effect. -/
theorem claim_C3_keep_filter_amended (handle : String → Key → String × Bool)
    (s : MultiSelectPrompt) (h : s.keep_filter = false) :
    (∀ idx, s.filtered_options.get? s.cursor_index = some idx →
      s.toggle_cursor_selection.input = "" ∧
      s.toggle_cursor_selection.filtered_options = s.filtered_options ∧
      s.toggle_cursor_selection.cursor_index = s.cursor_index ∧
      s.toggle_cursor_selection.checked =
        (if idx ∈ s.checked then s.checked.erase idx else insert idx s.checked)) ∧
    ((s.on_change handle (Key.Right KeyModifiers.NONE)).input = "" ∧
      (s.on_change handle (Key.Right KeyModifiers.NONE)).filtered_options =
        s.filtered_options ∧
      (s.on_change handle (Key.Right KeyModifiers.NONE)).cursor_index = s.cursor_index ∧
      ∀ i, i ∈ (s.on_change handle (Key.Right KeyModifiers.NONE)).checked ↔
        i ∈ s.filtered_options) ∧
    ((s.on_change handle (Key.Left KeyModifiers.NONE)).input = "" ∧
      (s.on_change handle (Key.Left KeyModifiers.NONE)).filtered_options =
        s.filtered_options ∧
      (s.on_change handle (Key.Left KeyModifiers.NONE)).cursor_index = s.cursor_index ∧
      (s.on_change handle (Key.Left KeyModifiers.NONE)).checked = ∅) := by
  refine ⟨?_, ?_, ?_⟩
  · intro idx hidx
    unfold MultiSelectPrompt.toggle_cursor_selection
    rw [hidx]
    simp [h]
  · unfold MultiSelectPrompt.on_change
    simp [h, mem_foldl_insert]
  · unfold MultiSelectPrompt.on_change
    simp [h]

/-- Witness for C3 (amended): on `sC3` the toggle clears the query, keeps the
filtered list and cursor, and checks index 0. -/
theorem claim_C3_keep_filter_amended_witness :
    sC3.keep_filter = false ∧
    sC3.filtered_options.get? sC3.cursor_index = some 0 ∧
    (sC3.toggle_cursor_selection.input = "" ∧
      sC3.toggle_cursor_selection.filtered_options = sC3.filtered_options ∧
      sC3.toggle_cursor_selection.cursor_index = sC3.cursor_index ∧
      sC3.toggle_cursor_selection.checked =
        (if 0 ∈ sC3.checked then sC3.checked.erase 0 else insert 0 sC3.checked)) :=
  ⟨rfl, rfl, (claim_C3_keep_filter_amended handleId sC3 rfl).1 0 rfl⟩

/-- Counterexample to C4: on `sC4` (four options, cursor 3) a dirty keystroke
whose recomputed filtered list is empty leaves the cursor at 3, not 0, and
the claimed invariant `cursor < max 1 len` fails. -/
theorem claim_C4_counterexample :
    (sC4.on_change handleAppend (Key.Char 'x' KeyModifiers.NONE)).filtered_options = [] ∧
    (sC4.on_change handleAppend (Key.Char 'x' KeyModifiers.NONE)).cursor_index = 3 ∧
    ¬ ((sC4.on_change handleAppend (Key.Char 'x' KeyModifiers.NONE)).cursor_index <
        max 1 (sC4.on_change handleAppend
          (Key.Char 'x' KeyModifiers.NONE)).filtered_options.length) := by
  refine ⟨?_, ?_, ?_⟩ <;> decide

/-- Claim C4 as amended: after a recompute triggered by a content-changing
keystroke, if the new filtered list is non-empty and the cursor is out of
range for it the cursor is clamped to the last valid position, so the cursor
is in range of every non-empty new list; if the new list is empty the cursor
is left unchanged (not reset to 0). -/
theorem claim_C4_clamp_amended (handle : String → Key → String × Bool)
    (s : MultiSelectPrompt) (key : Key)
    (hdirty : (handle s.input key).2 = true) :
    (s.handle_text_key handle key).filtered_options =
      MultiSelectPrompt.filter_options { s with input := (handle s.input key).1 } ∧
    (MultiSelectPrompt.filter_options { s with input := (handle s.input key).1 } = [] →
      (s.handle_text_key handle key).cursor_index = s.cursor_index) ∧
    (MultiSelectPrompt.filter_options { s with input := (handle s.input key).1 } ≠ [] →
      (s.handle_text_key handle key).cursor_index =
        (if (MultiSelectPrompt.filter_options
              { s with input := (handle s.input key).1 }).length ≤ s.cursor_index
          then (MultiSelectPrompt.filter_options
              { s with input := (handle s.input key).1 }).length - 1
          else s.cursor_index) ∧
      (s.handle_text_key handle key).cursor_index <
        (MultiSelectPrompt.filter_options
          { s with input := (handle s.input key).1 }).length) := by
  simp only [MultiSelectPrompt.handle_text_key, hdirty, if_true]
  refine ⟨trivial, ?_, ?_⟩
  · intro h
    simp [h]
  · intro h
    have hpos : 0 < (MultiSelectPrompt.filter_options
        { s with input := (handle s.input key).1 }).length :=
      List.length_pos.mpr h
    by_cases hle : (MultiSelectPrompt.filter_options
        { s with input := (handle s.input key).1 }).length ≤ s.cursor_index
    · rw [if_pos hle]
      constructor
      · simp only [if_pos (And.intro hpos hle)]
      · simp only [if_pos (And.intro hpos hle)]
        omega
    · rw [if_neg hle]
      constructor
      · simp only [if_neg (fun hc : _ ∧ _ => hle hc.2)]
      · simp only [if_neg (fun hc : _ ∧ _ => hle hc.2)]
        omega

/-- Witness for C4 (amended): the dirty keystroke on `sC4` produces the empty
filtered list and the cursor stays at its former position 3. -/
theorem claim_C4_clamp_amended_witness :
    (handleAppend sC4.input (Key.Char 'x' KeyModifiers.NONE)).2 = true ∧
    ((sC4.handle_text_key handleAppend (Key.Char 'x' KeyModifiers.NONE)).filtered_options =
      MultiSelectPrompt.filter_options
        { sC4 with input := (handleAppend sC4.input (Key.Char 'x' KeyModifiers.NONE)).1 } ∧
    (MultiSelectPrompt.filter_options
        { sC4 with input := (handleAppend sC4.input (Key.Char 'x' KeyModifiers.NONE)).1 } = [] →
      (sC4.handle_text_key handleAppend (Key.Char 'x' KeyModifiers.NONE)).cursor_index =
        sC4.cursor_index)) :=
  ⟨rfl,
    (claim_C4_clamp_amended handleAppend sC4 (Key.Char 'x' KeyModifiers.NONE) rfl).1,
    (claim_C4_clamp_amended handleAppend sC4 (Key.Char 'x' KeyModifiers.NONE) rfl).2.1⟩

/-- Enumerating a label list from `start` and keeping the checked entries is
the same as filtering the index range `[start, start + len)` by the checked
set and attaching each index its label.  This bridges the `enumerate`-based
answer assembly to its canonical index-ordered form. -/
theorem selected_enumFrom (checked : Finset Nat) (opts : List String) :
    ∀ start : Nat,
      ((opts.enumFrom start).filterMap fun p =>
          if p.1 ∈ checked then some (OptionAnswer.mk p.1 p.2) else none) =
        ((List.range' start opts.length).filter fun i => decide (i ∈ checked)).map
          fun i => OptionAnswer.mk i (opts.getD (i - start) "") := by
  induction opts with
  | nil => intro start; simp
  | cons o t ih =>
      intro start
      rw [List.enumFrom_cons, List.length_cons, List.range'_succ]
      rw [List.filterMap_cons, List.filter_cons]
      have htail : ((List.range' (start + 1) t.length).filter
            fun i => decide (i ∈ checked)).map
            (fun i => OptionAnswer.mk i ((o :: t).getD (i - start) "")) =
          ((List.range' (start + 1) t.length).filter
            fun i => decide (i ∈ checked)).map
            (fun i => OptionAnswer.mk i (t.getD (i - (start + 1)) "")) := by
        apply List.map_congr_left
        intro i hi
        have hge : start + 1 ≤ i := (List.mem_range'_1.mp (List.mem_of_mem_filter hi)).1
        have hsub : i - start = (i - (start + 1)) + 1 := by omega
        rw [hsub]
        rfl
      by_cases hs : start ∈ checked
      · rw [if_pos hs, decide_eq_true hs, if_pos rfl, List.map_cons, htail,
          ← ih (start + 1)]
        simp
      · rw [if_neg hs, decide_eq_false hs, if_neg (by simp), htail, ← ih (start + 1)]

/-- Claim C2: the candidate answer assembled on submit is exactly the
`(originalIndex, label)` pairs of the checked indices, in ascending original
index order, independent of check order (the checked set abstracts it away)
and of the current filter state (the assembly never reads `filtered_options`,
`input` or the cursor). -/
theorem claim_C2_submission_order (s : MultiSelectPrompt) :
    s.selected_options =
      ((List.range s.options.length).filter fun i => decide (i ∈ s.checked)).map
        (fun i => OptionAnswer.mk i (s.options.getD i "")) ∧
    List.Sorted (· < ·) (s.selected_options.map OptionAnswer.index) ∧
    (∀ fo inp cur, MultiSelectPrompt.selected_options
        { s with filtered_options := fo, input := inp, cursor_index := cur } =
      s.selected_options) := by
  have h1 : s.selected_options =
      ((List.range s.options.length).filter fun i => decide (i ∈ s.checked)).map
        (fun i => OptionAnswer.mk i (s.options.getD i "")) := by
    unfold MultiSelectPrompt.selected_options
    have := selected_enumFrom s.checked s.options 0
    rw [List.range_eq_range']
    simpa [List.enum] using this
  refine ⟨h1, ?_, fun fo inp cur => rfl⟩
  rw [h1, List.map_map]
  have hid : (OptionAnswer.index ∘ fun i => OptionAnswer.mk i (s.options.getD i "")) =
      fun i => i := rfl
  rw [hid]
  have hs : List.Sorted (· < ·)
      ((List.range s.options.length).filter fun i => decide (i ∈ s.checked)) :=
    (List.pairwise_lt_range s.options.length).filter _
  simpa using hs

/-- Claim C8: a submit key with a rejecting validator does not terminate the
loop — the validator message replaces the session error and every other field
is untouched — while an accepting validator (or none) terminates the loop
successfully with the candidate answer. -/
theorem claim_C8_validator (handle : String → Key → String × Bool)
    (s : MultiSelectPrompt) (rest : List Key) :
    (∀ msg, s.get_final_answer = .error msg →
      runPrompt handle (Key.Submit :: rest) s =
        runPrompt handle rest { s with error := some msg }) ∧
    (∀ ans, s.get_final_answer = .ok ans →
      runPrompt handle (Key.Submit :: rest) s = .success ans (s.formatter ans)) ∧
    (∀ v msg, s.validator = some v → v s.selected_options = .error msg →
      s.get_final_answer = .error msg) ∧
    (∀ v, s.validator = some v → v s.selected_options = .ok () →
      s.get_final_answer = .ok s.selected_options) ∧
    (s.validator = none → s.get_final_answer = .ok s.selected_options) := by
  refine ⟨?_, ?_, ?_, ?_, ?_⟩
  · intro msg h
    simp [runPrompt, h]
  · intro ans h
    simp [runPrompt, h]
  · intro v msg hv hrej
    simp [MultiSelectPrompt.get_final_answer, hv, hrej]
  · intro v hv hacc
    simp [MultiSelectPrompt.get_final_answer, hv, hacc]
  · intro hv
    simp [MultiSelectPrompt.get_final_answer, hv]

/-- Witness for C8: on `sC8` (nothing checked, validator rejecting empty
selections) a submit stores the rejection message as the session error and
keeps looping with everything else unchanged. -/
theorem claim_C8_validator_witness :
    sC8.get_final_answer = .error "select at least one option" ∧
    runPrompt handleId (Key.Submit :: []) sC8 =
      runPrompt handleId [] { sC8 with error := some "select at least one option" } :=
  ⟨rfl, (claim_C8_validator handleId sC8 []).1 "select at least one option" rfl⟩

end Inquire
